import Mathlib

/-!
Verification of the Adike-Mithra farm-management application.

This file gives a shallow embedding, in Lean 4, of the disease-detection,
market-price-maintenance, price-forecasting, irrigation-logging and
admin-settings logic of `app.py` / `models.py` / `price_scraper.py`, and
proves (or refutes) the frozen specification claims about that logic.

Modelling conventions:
* Python floats are modelled as rationals (`ℚ`); `round(x, 2)` is modelled
  by `round2` (nearest multiple of `1/100`).
* Timestamps are modelled as integer seconds of IST wall-clock time, with
  the epoch aligned to an IST midnight; `timedelta.days` is floor division
  by `86400`.
* The pre-trained ML models, `np.std`, the calendar decomposition of
  `datetime`, and the pseudo-random draws are external collaborators and
  are passed in as function parameters.
* Database tables are modelled as Lean lists in row order; SQLAlchemy's
  `query.first()` is the first matching element of the list, and a
  `rollback` after an uncaught exception restores the list that was
  current at the start of the handler (nothing was committed).
-/

namespace AdikeMitra

/-- Rounding a rational to two decimal places, modelling Python's
`round(x, 2)` as applied to the model outputs in `app.py`. -/
def round2 (x : ℚ) : ℚ := (round (x * 100) : ℤ) / 100

/-- Classification outcome of one binary disease classifier
(`status` field of the per-model result dict in `predict_disease`). -/
inductive Status where
  | Infected
  | Healthy
deriving DecidableEq, Repr

/-- One per-model entry of the `results` dict built by `predict_disease`
in `app.py` (keys `disease`, `confidence`, `status`). -/
structure ClassResult where
  disease : String
  confidence : ℚ
  status : Status
deriving DecidableEq, Repr

/-- Thresholding of one classifier probability, as in `predict_disease`
(`app.py` lines 244-278): probability strictly above `0.5` yields the
infected label with confidence `round(prob * 100, 2)`, otherwise the
healthy label with confidence `round((1 - prob) * 100, 2)`. -/
def classifyResult (infectedName healthyName : String) (prob : ℚ) : ClassResult :=
  if 1/2 < prob then
    ⟨infectedName, round2 (prob * 100), Status.Infected⟩
  else
    ⟨healthyName, round2 ((1 - prob) * 100), Status.Healthy⟩

/-- The yellow-leaf classifier entry of `predict_disease`. -/
def classifyYellowLeaf (prob : ℚ) : ClassResult :=
  classifyResult "Yellow Leaf Disease" "Healthy Leaf" prob

/-- The fruit-rot (koleroga) classifier entry of `predict_disease`. -/
def classifyFruitRot (prob : ℚ) : ClassResult :=
  classifyResult "Fruit Rot (Koleroga)" "Healthy Fruit" prob

/-- Confidence carried by the `validation` entry that `predict_disease`
always places in its results dict: `validate_image_content` always
returns `(True, 75.0, ...)` (`app.py` lines 207-212). -/
def VALIDATION_CONFIDENCE : ℚ := 75

/-- The non-validation entries of the results dict of `predict_disease`
for `detection_type = 'both'` with both models loaded, in dict insertion
order (yellow-leaf first, fruit-rot second). -/
def predictDisease (pYellow pFruit : ℚ) : List ClassResult :=
  [classifyYellowLeaf pYellow, classifyFruitRot pFruit]

/-- One iteration of the primary-disease selection loop in
`disease_detection` (`app.py` lines 663-668): an infected entry replaces
the accumulator only when its confidence is strictly greater. -/
def selectStep (acc : Option String × ℚ) (p : ClassResult) : Option String × ℚ :=
  if p.status = Status.Infected ∧ acc.2 < p.confidence then
    (some p.disease, p.confidence)
  else acc

/-- Primary-disease selection of `disease_detection` (`app.py` lines
659-675).  The loop over the predictions dict skips the `validation`
entry; if no infected entry was found, Python's
`max(pred['confidence'] for pred in predictions.values() ...)` ranges
over every dict value that has a `confidence` key, which includes the
`validation` entry. -/
def selectPrimary (validationConf : ℚ) (preds : List ClassResult) : String × ℚ :=
  let r := preds.foldl selectStep (none, 0)
  match r.1 with
  | some d => (d, r.2)
  | none => ("Healthy", (preds.map (fun p => p.confidence)).foldl max validationConf)

/-- Primary disease and confidence persisted by `disease_detection` for a
`both`-type detection, as a function of the two classifier
probabilities. -/
def diseaseDetectionPrimary (pYellow pFruit : ℚ) : String × ℚ :=
  selectPrimary VALIDATION_CONFIDENCE (predictDisease pYellow pFruit)

/-! Helper lemmas about `round2` and the classifier embedding. -/

lemma round2_ge_of_int_le (n : ℤ) (x : ℚ) (h : (n : ℚ) ≤ x) : (n : ℚ) ≤ round2 x := by
  unfold round2
  rw [round_eq]
  have hfloor : (n * 100 : ℤ) ≤ ⌊x * 100 + 1/2⌋ := by
    apply Int.le_floor.mpr
    push_cast
    linarith
  have h2 : ((n * 100 : ℤ) : ℚ) ≤ ((⌊x * 100 + 1/2⌋ : ℤ) : ℚ) := by exact_mod_cast hfloor
  push_cast at h2
  linarith

lemma round2_intCast (n : ℤ) : round2 ((n : ℚ)) = (n : ℚ) := by
  unfold round2
  rw [show ((n : ℚ) * 100) = ((n * 100 : ℤ) : ℚ) by push_cast; ring, round_intCast]
  push_cast
  field_simp

lemma round2_eq_ofInt (x : ℚ) (n : ℤ) (h : x = (n : ℚ)) : round2 x = (n : ℚ) :=
  h ▸ round2_intCast n

lemma round2_mul100_ge (p : ℚ) (hp : 1/2 < p) : 50 ≤ round2 (p * 100) := by
  have h := round2_ge_of_int_le 50 (p * 100) (by push_cast; linarith)
  push_cast at h
  linarith

/-! Claim theorems C1 and C2. -/

/-- C1: for a single-classifier invocation on an accepted image, a
probability strictly above `0.5` is reported `Infected` with confidence
`100 * p` rounded to two decimals, and a probability at most `0.5` is
reported `Healthy` with confidence `100 * (1 - p)` rounded to two
decimals (`predict_disease`, `app.py` lines 244-278). -/
theorem C1_classifier_threshold (i h : String) (p : ℚ) :
    (1/2 < p →
      (classifyResult i h p).status = Status.Infected ∧
      (classifyResult i h p).confidence = round2 (100 * p)) ∧
    (p ≤ 1/2 →
      (classifyResult i h p).status = Status.Healthy ∧
      (classifyResult i h p).confidence = round2 (100 * (1 - p))) := by
  constructor
  · intro hp
    rw [classifyResult, if_pos hp]
    exact ⟨rfl, by rw [mul_comm]⟩
  · intro hp
    rw [classifyResult, if_neg (not_lt.mpr hp)]
    exact ⟨rfl, by rw [mul_comm]⟩

/-- Witness for C1 at the concrete probabilities `3/4` and `1/4`. -/
theorem C1_classifier_threshold_witness :
    ((classifyResult "Yellow Leaf Disease" "Healthy Leaf" (3/4)).status = Status.Infected ∧
      (classifyResult "Yellow Leaf Disease" "Healthy Leaf" (3/4)).confidence =
        round2 (100 * (3/4))) ∧
    ((classifyResult "Yellow Leaf Disease" "Healthy Leaf" (1/4)).status = Status.Healthy ∧
      (classifyResult "Yellow Leaf Disease" "Healthy Leaf" (1/4)).confidence =
        round2 (100 * (1 - 1/4))) :=
  ⟨(C1_classifier_threshold _ _ _).1 (by norm_num),
   (C1_classifier_threshold _ _ _).2 (by norm_num)⟩

/-- C2 counterexample: with both classifiers reporting probability `2/5`
(both healthy, each at confidence `60`), `disease_detection` persists
confidence `75` — the confidence of the always-present `validation`
entry — and not the maximum classifier confidence `60`. -/
theorem C2_counterexample :
    diseaseDetectionPrimary (2/5) (2/5) = ("Healthy", 75) ∧
    (classifyYellowLeaf (2/5)).confidence = 60 ∧
    (classifyFruitRot (2/5)).confidence = 60 ∧
    (75 : ℚ) ≠ max 60 60 := by
  have hr : round2 ((1 - 2/5 : ℚ) * 100) = ((60 : ℤ) : ℚ) :=
    round2_eq_ofInt _ 60 (by norm_num)
  have eY : classifyYellowLeaf (2/5) = ⟨"Healthy Leaf", 60, Status.Healthy⟩ := by
    rw [classifyYellowLeaf, classifyResult, if_neg (by norm_num)]
    rw [hr]; norm_num
  have eF : classifyFruitRot (2/5) = ⟨"Healthy Fruit", 60, Status.Healthy⟩ := by
    rw [classifyFruitRot, classifyResult, if_neg (by norm_num)]
    rw [hr]; norm_num
  refine ⟨?_, by rw [eY], by rw [eF], by norm_num⟩
  simp only [diseaseDetectionPrimary, selectPrimary, predictDisease, eY, eF,
    List.foldl, selectStep, List.map, VALIDATION_CONFIDENCE]
  simp
  norm_num

/-- C2 (amended): among the classifier entries, the persisted primary
disease is the infected one with the strictly highest confidence, ties
favouring the model evaluated first (yellow-leaf); if no model reports
infected, the persisted disease is `"Healthy"` with confidence equal to
the maximum of the validation entry's fixed confidence `75` and the two
classifier confidences. -/
theorem C2_amended_primary_selection (pY pF : ℚ) :
    (((classifyYellowLeaf pY).status = Status.Infected ∨
        (classifyFruitRot pF).status = Status.Infected) →
      diseaseDetectionPrimary pY pF =
        (if (classifyFruitRot pF).status = Status.Infected ∧
            ((classifyYellowLeaf pY).status ≠ Status.Infected ∨
              (classifyYellowLeaf pY).confidence < (classifyFruitRot pF).confidence)
          then ((classifyFruitRot pF).disease, (classifyFruitRot pF).confidence)
          else ((classifyYellowLeaf pY).disease, (classifyYellowLeaf pY).confidence))) ∧
    (((classifyYellowLeaf pY).status = Status.Healthy ∧
        (classifyFruitRot pF).status = Status.Healthy) →
      diseaseDetectionPrimary pY pF =
        ("Healthy", max (max VALIDATION_CONFIDENCE (classifyYellowLeaf pY).confidence)
          (classifyFruitRot pF).confidence)) := by
  by_cases hY : 1/2 < pY <;> by_cases hF : 1/2 < pF
  -- both infected
  · have eY : classifyYellowLeaf pY =
        ⟨"Yellow Leaf Disease", round2 (pY * 100), Status.Infected⟩ := by
      rw [classifyYellowLeaf, classifyResult, if_pos hY]
    have eF : classifyFruitRot pF =
        ⟨"Fruit Rot (Koleroga)", round2 (pF * 100), Status.Infected⟩ := by
      rw [classifyFruitRot, classifyResult, if_pos hF]
    have cY : (0 : ℚ) < round2 (pY * 100) :=
      lt_of_lt_of_le (by norm_num) (round2_mul100_ge pY hY)
    constructor
    · intro _
      by_cases hlt : round2 (pY * 100) < round2 (pF * 100) <;>
        simp [diseaseDetectionPrimary, selectPrimary, predictDisease, eY, eF,
          List.foldl, selectStep, cY, hlt]
    · intro hcase
      rw [eY] at hcase
      simp at hcase
  -- yellow infected only
  · have eY : classifyYellowLeaf pY =
        ⟨"Yellow Leaf Disease", round2 (pY * 100), Status.Infected⟩ := by
      rw [classifyYellowLeaf, classifyResult, if_pos hY]
    have eF : classifyFruitRot pF =
        ⟨"Healthy Fruit", round2 ((1 - pF) * 100), Status.Healthy⟩ := by
      rw [classifyFruitRot, classifyResult, if_neg hF]
    have cY : (0 : ℚ) < round2 (pY * 100) :=
      lt_of_lt_of_le (by norm_num) (round2_mul100_ge pY hY)
    constructor
    · intro _
      simp [diseaseDetectionPrimary, selectPrimary, predictDisease, eY, eF,
        List.foldl, selectStep, cY]
    · intro hcase
      rw [eY] at hcase
      simp at hcase
  -- fruit infected only
  · have eY : classifyYellowLeaf pY =
        ⟨"Healthy Leaf", round2 ((1 - pY) * 100), Status.Healthy⟩ := by
      rw [classifyYellowLeaf, classifyResult, if_neg hY]
    have eF : classifyFruitRot pF =
        ⟨"Fruit Rot (Koleroga)", round2 (pF * 100), Status.Infected⟩ := by
      rw [classifyFruitRot, classifyResult, if_pos hF]
    have cF : (0 : ℚ) < round2 (pF * 100) :=
      lt_of_lt_of_le (by norm_num) (round2_mul100_ge pF hF)
    constructor
    · intro _
      simp [diseaseDetectionPrimary, selectPrimary, predictDisease, eY, eF,
        List.foldl, selectStep, cF]
    · intro hcase
      rw [eF] at hcase
      simp at hcase
  -- both healthy
  · have eY : classifyYellowLeaf pY =
        ⟨"Healthy Leaf", round2 ((1 - pY) * 100), Status.Healthy⟩ := by
      rw [classifyYellowLeaf, classifyResult, if_neg hY]
    have eF : classifyFruitRot pF =
        ⟨"Healthy Fruit", round2 ((1 - pF) * 100), Status.Healthy⟩ := by
      rw [classifyFruitRot, classifyResult, if_neg hF]
    constructor
    · intro hcase
      rw [eY, eF] at hcase
      simp at hcase
    · intro _
      simp [diseaseDetectionPrimary, selectPrimary, predictDisease, eY, eF,
        List.foldl, selectStep, max_assoc]

/-- Witness for C2 (amended) at concrete probabilities: fruit-rot
probability `9/10` beats yellow-leaf probability `3/5`. -/
theorem C2_amended_primary_selection_witness :
    diseaseDetectionPrimary (3/5) (9/10) =
      (if (classifyFruitRot (9/10)).status = Status.Infected ∧
          ((classifyYellowLeaf (3/5)).status ≠ Status.Infected ∨
            (classifyYellowLeaf (3/5)).confidence < (classifyFruitRot (9/10)).confidence)
        then ((classifyFruitRot (9/10)).disease, (classifyFruitRot (9/10)).confidence)
        else ((classifyYellowLeaf (3/5)).disease, (classifyYellowLeaf (3/5)).confidence)) :=
  (C2_amended_primary_selection (3/5) (9/10)).1
    (Or.inl (by rw [classifyYellowLeaf, classifyResult, if_pos (by norm_num)]))

/-! Price-forecaster embedding (`price_prediction` and
`generate_simple_predictions`, `app.py` lines 1025-1143). -/

/-- One stored `MarketPrice` row as consumed by the forecaster
(`red_arecanut_price` and `white_arecanut_price`). -/
structure PriceRow where
  red : ℚ
  white : ℚ
deriving DecidableEq, Repr

/-- One forecast entry as appended to `predictions` (its `red` and
`white` fields; the formatted date string is external rendering). -/
structure PredEntry where
  red : ℚ
  white : ℚ
deriving DecidableEq, Repr

/-- Python slice `l[-n:]`. -/
def lastN (l : List ℚ) (n : ℕ) : List ℚ := l.drop (l.length - n)

/-- Python negative index `l[-n]` (guarded by length checks at every
use site in the source). -/
def nthLast (l : List ℚ) (n : ℕ) : ℚ := l.getD (l.length - n) 0

/-- Numpy `np.mean` on a list of prices. -/
def mean (l : List ℚ) : ℚ := l.sum / (l.length : ℚ)

/-- Python `max` over a nonempty list (0 is never used: every use site
guards nonemptiness). -/
def listMax (l : List ℚ) : ℚ := (l.max?).getD 0

/-- Python `min` over a nonempty list. -/
def listMin (l : List ℚ) : ℚ := (l.min?).getD 0

/-- Calendar components of a forecast date, produced by the external
`datetime` library for the day `now + i days`. -/
structure CalParts where
  year : ℤ
  month : ℤ
  day : ℤ
  dayOfWeek : ℤ
deriving DecidableEq, Repr

/-- The feature dict assembled for the regression model in
`price_prediction` (`app.py` lines 1049-1074). -/
structure Features where
  year : ℤ
  month : ℤ
  day : ℤ
  dayOfWeek : ℤ
  isWeekend : ℤ
  lag1 : ℚ
  lag2 : ℚ
  lag3 : ℚ
  lag7 : ℚ
  lag14 : ℚ
  ma7 : ℚ
  ma14 : ℚ
  ma30 : ℚ
  std7 : ℚ
  std14 : ℚ
  priceRange : ℚ
deriving DecidableEq, Repr

/-- Feature assembly of `price_prediction` (`app.py` lines 1049-1074):
calendar fields, lagged prices from `base_prices` (falling back to the
historical list when too short), moving averages, standard deviations
(`np.std` is the external `stddev` parameter) and the 7-day range. -/
def buildFeatures (cal : CalParts) (basePrices histRed : List ℚ)
    (stddev : List ℚ → ℚ) : Features where
  year := cal.year
  month := cal.month
  day := cal.day
  dayOfWeek := cal.dayOfWeek
  isWeekend := if 5 ≤ cal.dayOfWeek then 1 else 0
  lag1 := if 1 ≤ basePrices.length then nthLast basePrices 1 else nthLast histRed 1
  lag2 := if 2 ≤ basePrices.length then nthLast basePrices 2 else nthLast histRed 2
  lag3 := if 3 ≤ basePrices.length then nthLast basePrices 3 else nthLast histRed 3
  lag7 := if 7 ≤ basePrices.length then nthLast basePrices 7 else nthLast histRed 7
  lag14 := if 14 ≤ basePrices.length then nthLast basePrices 14 else nthLast histRed 14
  ma7 := if 7 ≤ basePrices.length then mean (lastN basePrices 7) else mean (lastN histRed 7)
  ma14 := if 14 ≤ basePrices.length then mean (lastN basePrices 14) else mean (lastN histRed 14)
  ma30 := if 30 ≤ histRed.length then mean (lastN histRed 30) else mean histRed
  std7 := if 7 ≤ basePrices.length then stddev (lastN basePrices 7) else stddev (lastN histRed 7)
  std14 := if 14 ≤ basePrices.length then stddev (lastN basePrices 14)
    else stddev (lastN histRed 14)
  priceRange := if 7 ≤ basePrices.length
    then listMax (lastN basePrices 7) - listMin (lastN basePrices 7)
    else listMax (lastN histRed 7) - listMin (lastN histRed 7)

/-- Plausibility clamp of `price_prediction` (`app.py` lines 1085-1087):
a raw prediction below 100 or above 1000 is replaced by
`recent_avg * (1 + u)` where `u` is the `np.random.uniform(-0.02, 0.02)`
draw; otherwise it is kept. -/
def clampPred (raw recentAvg u : ℚ) : ℚ :=
  if raw < 100 ∨ 1000 < raw then recentAvg * (1 + u) else raw

/-- One iteration of the 15-day regression forecast loop of
`price_prediction` (`app.py` lines 1044-1101): build features, run the
model, clamp, derive the white price as `red * 1.15`, round both to two
decimals, and append the (unrounded) red prediction to `base_prices`,
popping the front once the window exceeds 30. -/
def regressionStep (model : Features → ℚ) (stddev : List ℚ → ℚ) (cal : ℕ → CalParts)
    (rand : ℕ → ℚ) (histRed : List ℚ) (i : ℕ) (basePrices : List ℚ) :
    PredEntry × List ℚ :=
  let redRaw := model (buildFeatures (cal i) basePrices histRed stddev)
  let recentAvg := mean (lastN histRed 7)
  let redPred := clampPred redRaw recentAvg (rand i)
  let whitePred := redPred * (23/20)
  let bp1 := basePrices ++ [redPred]
  (⟨round2 redPred, round2 whitePred⟩, if 30 < bp1.length then bp1.drop 1 else bp1)

/-- The regression forecast loop, `n` days remaining, next day index `i`. -/
def regressionGo (model : Features → ℚ) (stddev : List ℚ → ℚ) (cal : ℕ → CalParts)
    (rand : ℕ → ℚ) (histRed : List ℚ) : ℕ → ℕ → List ℚ → List PredEntry
  | 0, _, _ => []
  | n + 1, i, bp =>
    (regressionStep model stddev cal rand histRed i bp).1 ::
      regressionGo model stddev cal rand histRed n (i + 1)
        (regressionStep model stddev cal rand histRed i bp).2

/-- The regression path of `price_prediction`: 15 forecast days starting
from `base_prices = [p.red_arecanut_price for p in historical_prices[-14:]]`. -/
def regressionPredict (model : Features → ℚ) (stddev : List ℚ → ℚ) (cal : ℕ → CalParts)
    (rand : ℕ → ℚ) (histRed : List ℚ) : List PredEntry :=
  regressionGo model stddev cal rand histRed 15 1 (lastN histRed 14)

/-- Fallback forecast `generate_simple_predictions` (`app.py` lines
1128-1143): 15 entries, each the last stored red/white price plus an
independent `random.uniform(-20, 30)` perturbation, rounded to two
decimals; the empty history produces an empty forecast. -/
def generate_simple_predictions (randRed randWhite : ℕ → ℚ) (hist : List PriceRow) :
    List PredEntry :=
  match hist.getLast? with
  | none => []
  | some last =>
    (List.range 15).map (fun i =>
      ⟨round2 (last.red + randRed i), round2 (last.white + randWhite i)⟩)

/-- The forecast produced by the `price_prediction` route (`app.py`
lines 1033-1109): the regression path runs only when the model is loaded
and at least 14 historical points exist; otherwise the simple fallback
runs. -/
def price_prediction (model : Option (Features → ℚ)) (stddev : List ℚ → ℚ)
    (cal : ℕ → CalParts) (rand randRed randWhite : ℕ → ℚ) (hist : List PriceRow) :
    List PredEntry :=
  match model with
  | some m =>
    if hist ≠ [] ∧ 14 ≤ hist.length then
      regressionPredict m stddev cal rand (hist.map (fun p => p.red))
    else
      generate_simple_predictions randRed randWhite hist
  | none => generate_simple_predictions randRed randWhite hist

/-! Helper lemmas for the forecaster. -/

lemma regressionGo_length (model : Features → ℚ) (stddev : List ℚ → ℚ)
    (cal : ℕ → CalParts) (rand : ℕ → ℚ) (histRed : List ℚ) :
    ∀ (n i : ℕ) (bp : List ℚ),
      (regressionGo model stddev cal rand histRed n i bp).length = n := by
  intro n
  induction n with
  | zero => intro i bp; rfl
  | succ n ih => intro i bp; simp [regressionGo, ih]

lemma generate_simple_length (randRed randWhite : ℕ → ℚ) (hist : List PriceRow) :
    (generate_simple_predictions randRed randWhite hist).length =
      if hist = [] then 0 else 15 := by
  unfold generate_simple_predictions
  match h : hist.getLast? with
  | none =>
    rw [List.getLast?_eq_none_iff] at h
    simp [h]
  | some last =>
    have : hist ≠ [] := by
      intro hc
      subst hc
      simp at h
    simp [this]

/-- C3: the regression model is never consulted on a history shorter
than 14 points (the forecast is then exactly the fallback forecast, for
any loaded model); the forecast has exactly 15 entries whenever at least
one historical price exists, and 0 entries for an empty history
(`price_prediction`, `app.py` lines 1033-1109, and
`generate_simple_predictions`, lines 1128-1143). -/
theorem C3_forecast_length (model : Option (Features → ℚ)) (stddev : List ℚ → ℚ)
    (cal : ℕ → CalParts) (rand randRed randWhite : ℕ → ℚ) (hist : List PriceRow) :
    (hist.length < 14 →
      price_prediction model stddev cal rand randRed randWhite hist =
        generate_simple_predictions randRed randWhite hist) ∧
    (hist ≠ [] →
      (price_prediction model stddev cal rand randRed randWhite hist).length = 15) ∧
    (hist = [] →
      (price_prediction model stddev cal rand randRed randWhite hist).length = 0) := by
  refine ⟨?_, ?_, ?_⟩
  · intro hshort
    match model with
    | none => rfl
    | some m =>
      simp only [price_prediction]
      rw [if_neg (fun hc => absurd hc.2 (by omega))]
  · intro hne
    match model with
    | some m =>
      simp only [price_prediction]
      by_cases hlen : 14 ≤ hist.length
      · rw [if_pos ⟨hne, hlen⟩, regressionPredict, regressionGo_length]
      · rw [if_neg (fun hc => hlen hc.2), generate_simple_length, if_neg hne]
    | none =>
      simp only [price_prediction]
      rw [generate_simple_length, if_neg hne]
  · intro hnil
    subst hnil
    match model with
    | some m => simp [price_prediction, generate_simple_length]
    | none => simp [price_prediction, generate_simple_length]

/-- Witness for C3 on the one-point history `[(150, 160)]`: the
regression branch is skipped and 15 entries are produced. -/
theorem C3_forecast_length_witness :
    (price_prediction (some (fun _ => 500)) (fun _ => 0) (fun _ => ⟨0, 0, 0, 0⟩)
        (fun _ => 0) (fun _ => 0) (fun _ => 0) [⟨150, 160⟩] =
      generate_simple_predictions (fun _ => 0) (fun _ => 0) [⟨150, 160⟩]) ∧
    (price_prediction (some (fun _ => 500)) (fun _ => 0) (fun _ => ⟨0, 0, 0, 0⟩)
        (fun _ => 0) (fun _ => 0) (fun _ => 0) [⟨150, 160⟩]).length = 15 :=
  ⟨(C3_forecast_length _ _ _ _ _ _ _).1 (by norm_num),
   (C3_forecast_length _ _ _ _ _ _ _).2.1 (by simp)⟩

/-- C6 counterexample: on the fallback path the white price is *not*
the red price times 1.15 — with history `[(150, 160)]` and zero
perturbations the first forecast entry is `(150, 160)`, and
`160 ≠ 150 * 1.15 = 172.5`. -/
theorem C6_counterexample :
    ∃ e ∈ price_prediction none (fun _ => 0) (fun _ => ⟨0, 0, 0, 0⟩) (fun _ => 0)
        (fun _ => 0) (fun _ => 0) [⟨150, 160⟩], e.white ≠ e.red * (23/20) := by
  have h150 : round2 (150 : ℚ) = ((150 : ℤ) : ℚ) := round2_eq_ofInt _ _ (by norm_num)
  have h160 : round2 (160 : ℚ) = ((160 : ℤ) : ℚ) := round2_eq_ofInt _ _ (by norm_num)
  push_cast at h150 h160
  refine ⟨⟨150, 160⟩, ?_, by norm_num⟩
  show ⟨150, 160⟩ ∈ generate_simple_predictions (fun _ => 0) (fun _ => 0) [⟨150, 160⟩]
  unfold generate_simple_predictions
  simp only [List.getLast?]
  refine List.mem_map.mpr ⟨0, by simp, ?_⟩
  simp [h150, h160]

lemma regressionGo_white_premium (model : Features → ℚ) (stddev : List ℚ → ℚ)
    (cal : ℕ → CalParts) (rand : ℕ → ℚ) (histRed : List ℚ) :
    ∀ (n i : ℕ) (bp : List ℚ) (e : PredEntry),
      e ∈ regressionGo model stddev cal rand histRed n i bp →
      ∃ r, e.red = round2 r ∧ e.white = round2 (r * (23/20)) := by
  intro n
  induction n with
  | zero => intro i bp e he; simp [regressionGo] at he
  | succ n ih =>
    intro i bp e he
    rw [regressionGo] at he
    rcases List.mem_cons.mp he with h | h
    · subst h
      exact ⟨clampPred (model (buildFeatures (cal i) bp histRed stddev))
        (mean (lastN histRed 7)) (rand i), rfl, rfl⟩
    · exact ih _ _ _ h

/-- C6 (amended): on the regression path every forecast entry's white
price is derived from the same (unrounded) red prediction scaled by
exactly 1.15 — both fields are that prediction and its 1.15-multiple,
each rounded to two decimals; on the fallback path the white price is
instead an independent perturbation of the last stored white price
(`app.py` lines 1089-1096 and 1134-1142). -/
theorem C6_amended_white_premium (model : Features → ℚ) (stddev : List ℚ → ℚ)
    (cal : ℕ → CalParts) (rand : ℕ → ℚ) (histRed : List ℚ) (e : PredEntry)
    (he : e ∈ regressionPredict model stddev cal rand histRed) :
    ∃ r, e.red = round2 r ∧ e.white = round2 (r * (23/20)) :=
  regressionGo_white_premium model stddev cal rand histRed 15 1 (lastN histRed 14) e he

/-- Witness for C6 (amended): the head entry of a concrete regression
forecast. -/
theorem C6_amended_white_premium_witness :
    ∃ r, ((regressionStep (fun _ => 500) (fun _ => 0) (fun _ => ⟨0, 0, 0, 0⟩)
        (fun _ => 0) (List.replicate 14 500) 1
        (lastN (List.replicate 14 500) 14)).1).red = round2 r ∧
      ((regressionStep (fun _ => 500) (fun _ => 0) (fun _ => ⟨0, 0, 0, 0⟩)
        (fun _ => 0) (List.replicate 14 500) 1
        (lastN (List.replicate 14 500) 14)).1).white = round2 (r * (23/20)) :=
  C6_amended_white_premium (fun _ => 500) (fun _ => 0) (fun _ => ⟨0, 0, 0, 0⟩)
    (fun _ => 0) (List.replicate 14 500) _ (List.mem_cons_self _ _)

/-- C7: in every regression forecast step, a raw model output inside
`[100, 1000]` is used unchanged (the entry stores it rounded to two
decimals), and a raw output outside `[100, 1000]` is replaced by
`recent_avg * (1 + u)` with `u` drawn from `[-0.02, 0.02]`, a value
within ±2% of the trailing 7-day average of historical red prices
(`price_prediction`, `app.py` lines 1080-1087). -/
theorem C7_clamp_replacement (model : Features → ℚ) (stddev : List ℚ → ℚ)
    (cal : ℕ → CalParts) (rand : ℕ → ℚ) (histRed : List ℚ) (i : ℕ) (bp : List ℚ)
    (hu1 : -(1/50) ≤ rand i) (hu2 : rand i ≤ 1/50)
    (havg : 0 ≤ mean (lastN histRed 7)) :
    (¬(model (buildFeatures (cal i) bp histRed stddev) < 100 ∨
        1000 < model (buildFeatures (cal i) bp histRed stddev)) →
      (regressionStep model stddev cal rand histRed i bp).1.red =
        round2 (model (buildFeatures (cal i) bp histRed stddev))) ∧
    ((model (buildFeatures (cal i) bp histRed stddev) < 100 ∨
        1000 < model (buildFeatures (cal i) bp histRed stddev)) →
      (regressionStep model stddev cal rand histRed i bp).1.red =
        round2 (mean (lastN histRed 7) * (1 + rand i)) ∧
      |mean (lastN histRed 7) * (1 + rand i) - mean (lastN histRed 7)| ≤
        (2/100) * mean (lastN histRed 7)) := by
  constructor
  · intro hin
    show round2 (clampPred _ _ _) = _
    rw [clampPred, if_neg hin]
  · intro hout
    constructor
    · show round2 (clampPred _ _ _) = _
      rw [clampPred, if_pos hout]
    · rw [show mean (lastN histRed 7) * (1 + rand i) - mean (lastN histRed 7) =
        mean (lastN histRed 7) * rand i by ring, abs_mul, abs_of_nonneg havg]
      calc mean (lastN histRed 7) * |rand i|
          ≤ mean (lastN histRed 7) * (1/50) :=
            mul_le_mul_of_nonneg_left (abs_le.mpr ⟨hu1, hu2⟩) havg
        _ = (2/100) * mean (lastN histRed 7) := by ring

/-- Witness for C7: a constant model output of 2000 (outside the band)
over the one-point history `[500]`, with perturbation `1/100`. -/
theorem C7_clamp_replacement_witness :
    (regressionStep (fun _ => 2000) (fun _ => 0) (fun _ => ⟨0, 0, 0, 0⟩)
        (fun _ => 1/100) [500] 1 []).1.red =
      round2 (mean (lastN [500] 7) * (1 + 1/100)) ∧
    |mean (lastN [500] 7) * (1 + 1/100) - mean (lastN [500] 7)| ≤
      (2/100) * mean (lastN [500] 7) :=
  (C7_clamp_replacement (fun _ => 2000) (fun _ => 0) (fun _ => ⟨0, 0, 0, 0⟩)
      (fun _ => 1/100) [500] 1 [] (by norm_num) (by norm_num)
      (by norm_num [mean, lastN])).2
    (Or.inr (by norm_num))

/-! Market-price maintenance embedding (`market_prices`,
`update_market_prices` and the admin `update_prices` endpoint). -/

/-- Python `timedelta.days` of an elapsed number of seconds: floor
division by 86400. -/
def timedeltaDays (delta : ℤ) : ℤ := Int.fdiv delta 86400

/-- Staleness decision of `market_prices` (`app.py` lines 929-948): a
refresh is triggered when no stored price exists, or when
`(get_ist_now() - latest_date).days >= 1`. -/
def shouldRefresh (now : ℤ) (latest : Option ℤ) : Bool :=
  match latest with
  | none => true
  | some t => decide (1 ≤ timedeltaDays (now - t))

/-- IST calendar-day index of a timestamp (days since the IST-midnight
epoch). -/
def calendarDay (t : ℤ) : ℤ := Int.fdiv t 86400

/-- Modelled from the spec words of C4, for comparison with
`shouldRefresh`: refresh exactly when no stored price exists or the
freshest price is at least one IST calendar day older than the current
date. -/
def claimRefreshC4 (now : ℤ) (latest : Option ℤ) : Bool :=
  match latest with
  | none => true
  | some t => decide (1 ≤ calendarDay now - calendarDay t)

/-- One `MarketPrice` row (`models.py` lines 75-86). -/
structure MPrice where
  source : String
  red : ℚ
  white : ℚ
  grade : String
  date : ℤ
deriving DecidableEq, Repr

/-- IST midnight of the day containing `now`, i.e.
`get_ist_now().replace(hour=0, minute=0, second=0, microsecond=0)`
(`app.py` line 988). -/
def todayStart (now : ℤ) : ℤ := 86400 * Int.fdiv now 86400

/-- The in-place update half of `update_market_prices` (`app.py` lines
989-997): find the first row with `date >= today_start` and overwrite
its prices and date; `none` when no such row exists. -/
def upsertGo (ts : ℤ) (red white : ℚ) (now : ℤ) : List MPrice → Option (List MPrice)
  | [] => none
  | r :: rs =>
    if ts ≤ r.date then
      some ({ r with red := red, white := white, date := now } :: rs)
    else
      match upsertGo ts red white now rs with
      | some rs1 => some (r :: rs1)
      | none => none

/-- The refresh operation `update_market_prices` (`app.py` lines
973-1016): overwrite the first row dated on or after today's IST
midnight, or append a fresh `CAMPCO Mangalore / Grade A` row dated
now. -/
def update_market_prices (db : List MPrice) (red white : ℚ) (now : ℤ) : List MPrice :=
  match upsertGo (todayStart now) red white now db with
  | some db1 => db1
  | none => db ++ [⟨"CAMPCO Mangalore", red, white, "Grade A", now⟩]

/-- Number of stored rows dated within the IST calendar day containing
`now`. -/
def countSameDay (db : List MPrice) (now : ℤ) : ℕ :=
  (db.filter (fun r =>
    decide (todayStart now ≤ r.date ∧ r.date < todayStart now + 86400))).length

/-- The admin manual price-update endpoint `update_prices` (`app.py`
lines 1220-1239): unconditionally append a new row; its `date` takes the
model default `get_ist_now()` (`models.py` line 83). -/
def update_prices (db : List MPrice) (source : String) (red white : ℚ)
    (grade : String) (now : ℤ) : List MPrice :=
  db ++ [⟨source, red, white, grade, now⟩]

/-! Helper lemmas for timestamps and the upsert. -/

lemma one_le_fdiv_86400 (d : ℤ) : 1 ≤ Int.fdiv d 86400 ↔ 86400 ≤ d := by
  rw [Int.fdiv_eq_ediv _ (by norm_num),
    Int.le_ediv_iff_mul_le (show (0:ℤ) < 86400 by norm_num)]
  omega

lemma todayStart_le (t : ℤ) : todayStart t ≤ t ∧ t < todayStart t + 86400 := by
  unfold todayStart
  rw [Int.fdiv_eq_ediv _ (by norm_num)]
  have h1 := Int.ediv_add_emod t 86400
  have h2 := Int.emod_nonneg t (show (86400:ℤ) ≠ 0 by norm_num)
  have h3 := Int.emod_lt_of_pos t (show (0:ℤ) < 86400 by norm_num)
  omega

lemma upsertGo_none (ts : ℤ) (red white : ℚ) (now : ℤ) :
    ∀ l : List MPrice, (∀ r ∈ l, r.date < ts) → upsertGo ts red white now l = none := by
  intro l
  induction l with
  | nil => intro _; rfl
  | cons r rs ih =>
    intro h
    rw [upsertGo, if_neg (not_le.mpr (h r (List.mem_cons_self r rs))),
      ih (fun x hx => h x (List.mem_cons_of_mem r hx))]

lemma upsertGo_append (ts : ℤ) (red white : ℚ) (now : ℤ) (l : List MPrice)
    (row : MPrice) (hl : ∀ r ∈ l, r.date < ts) (hrow : ts ≤ row.date) :
    upsertGo ts red white now (l ++ [row]) =
      some (l ++ [{ row with red := red, white := white, date := now }]) := by
  induction l with
  | nil => simp [upsertGo, hrow]
  | cons r rs ih =>
    rw [List.cons_append, upsertGo,
      if_neg (not_le.mpr (hl r (List.mem_cons_self r rs))),
      ih (fun x hx => hl x (List.mem_cons_of_mem r hx))]
    rfl

lemma upsertGo_length (ts : ℤ) (red white : ℚ) (now : ℤ) :
    ∀ (l l' : List MPrice), upsertGo ts red white now l = some l' →
      l'.length = l.length := by
  intro l
  induction l with
  | nil => intro l' h; simp [upsertGo] at h
  | cons r rs ih =>
    intro l' h
    rw [upsertGo] at h
    by_cases hr : ts ≤ r.date
    · rw [if_pos hr] at h
      cases h
      simp
    · rw [if_neg hr] at h
      cases hup : upsertGo ts red white now rs with
      | none => rw [hup] at h; exact Option.noConfusion h
      | some rs1 =>
        rw [hup] at h
        cases h
        simp [ih rs1 hup]

lemma upsertGo_isSome (ts : ℤ) (red white : ℚ) (now : ℤ) :
    ∀ l : List MPrice, (∃ r ∈ l, ts ≤ r.date) →
      (upsertGo ts red white now l).isSome = true := by
  intro l
  induction l with
  | nil =>
    rintro ⟨r, hr, -⟩
    simp at hr
  | cons r rs ih =>
    rintro ⟨x, hx, hts⟩
    rw [upsertGo]
    by_cases hr : ts ≤ r.date
    · rw [if_pos hr]; rfl
    · rw [if_neg hr]
      rcases List.mem_cons.mp hx with h | h
      · subst h; exact absurd hts hr
      · have hs := ih ⟨x, h, hts⟩
        cases hup : upsertGo ts red white now rs with
        | none => rw [hup] at hs; simp at hs
        | some rs1 => rfl

/-- C4 counterexample: a price stored yesterday at 23:00 IST viewed
today at 10:00 IST is one calendar day old, yet only 11 hours have
elapsed, so the code does *not* refresh while the calendar-day reading
of the claim demands a refresh. -/
theorem C4_counterexample :
    shouldRefresh 122400 (some 82800) = false ∧
    claimRefreshC4 122400 (some 82800) = true ∧
    calendarDay 122400 - calendarDay 82800 = 1 := by
  refine ⟨?_, ?_, ?_⟩ <;> decide

/-- C4 (amended): on a pricing-page view a refresh is triggered if and
only if no stored price exists, or at least 24 hours (86400 seconds)
have elapsed since the most recent stored price's timestamp — an
elapsed-time threshold, not a calendar-day one (`market_prices`,
`app.py` lines 929-948). -/
theorem C4_amended_staleness (now : ℤ) (latest : Option ℤ) :
    shouldRefresh now latest = true ↔
      latest = none ∨ ∃ t, latest = some t ∧ 86400 ≤ now - t := by
  cases latest with
  | none => simp [shouldRefresh]
  | some t =>
    simp only [shouldRefresh, timedeltaDays, decide_eq_true_eq, one_le_fdiv_86400]
    simp

/-- C5: the refresh is an upsert keyed on the IST calendar day: from a
store with no row dated today or later, the first refresh appends
exactly one row, the second refresh on the same day overwrites it in
place (no new row), and after both refreshes exactly one row for that
day remains, carrying the values of the second refresh
(`update_market_prices`, `app.py` lines 973-1016). -/
theorem C5_upsert_idempotent (db : List MPrice) (r1 w1 r2 w2 : ℚ) (t1 t2 : ℤ)
    (h0 : ∀ row ∈ db, row.date < todayStart t1)
    (hday : todayStart t1 = todayStart t2) :
    update_market_prices db r1 w1 t1 =
      db ++ [⟨"CAMPCO Mangalore", r1, w1, "Grade A", t1⟩] ∧
    update_market_prices (update_market_prices db r1 w1 t1) r2 w2 t2 =
      db ++ [⟨"CAMPCO Mangalore", r2, w2, "Grade A", t2⟩] ∧
    (update_market_prices (update_market_prices db r1 w1 t1) r2 w2 t2).length =
      (update_market_prices db r1 w1 t1).length ∧
    countSameDay (update_market_prices (update_market_prices db r1 w1 t1) r2 w2 t2) t2
      = 1 ∧
    (∀ db2 : List MPrice, (∃ row ∈ db2, todayStart t2 ≤ row.date) →
      (update_market_prices db2 r2 w2 t2).length = db2.length) := by
  have h0' : ∀ row ∈ db, row.date < todayStart t2 := fun row hr => hday ▸ h0 row hr
  have e1 : update_market_prices db r1 w1 t1 =
      db ++ [⟨"CAMPCO Mangalore", r1, w1, "Grade A", t1⟩] := by
    unfold update_market_prices
    rw [upsertGo_none _ _ _ _ db h0]
  have hrow1 : todayStart t2 ≤ t1 := hday ▸ (todayStart_le t1).1
  have e2 : update_market_prices (update_market_prices db r1 w1 t1) r2 w2 t2 =
      db ++ [⟨"CAMPCO Mangalore", r2, w2, "Grade A", t2⟩] := by
    rw [e1]
    unfold update_market_prices
    rw [upsertGo_append _ _ _ _ db _ h0' hrow1]
  refine ⟨e1, e2, by rw [e2, e1]; simp, ?_, ?_⟩
  · rw [e2]
    unfold countSameDay
    rw [List.filter_append]
    have hdb : db.filter (fun r =>
        decide (todayStart t2 ≤ r.date ∧ r.date < todayStart t2 + 86400)) = [] := by
      apply List.filter_eq_nil_iff.mpr
      intro r hr
      simp only [decide_eq_true_eq, not_and]
      intro hc
      exact absurd hc (not_le.mpr (h0' r hr))
    rw [hdb]
    simp [List.filter, (todayStart_le t2).1, (todayStart_le t2).2]
  · intro db2 hex
    have hsome := upsertGo_isSome (todayStart t2) r2 w2 t2 db2 hex
    obtain ⟨l1, hl1⟩ := Option.isSome_iff_exists.mp hsome
    unfold update_market_prices
    rw [hl1]
    exact upsertGo_length _ _ _ _ db2 l1 hl1

/-- Witness for C5: two same-instant refreshes of an empty store. -/
theorem C5_upsert_idempotent_witness :
    update_market_prices [] 10 11 3600 =
      [] ++ [⟨"CAMPCO Mangalore", 10, 11, "Grade A", 3600⟩] ∧
    update_market_prices (update_market_prices [] 10 11 3600) 12 13 3600 =
      [] ++ [⟨"CAMPCO Mangalore", 12, 13, "Grade A", 3600⟩] ∧
    (update_market_prices (update_market_prices [] 10 11 3600) 12 13 3600).length =
      (update_market_prices [] 10 11 3600).length ∧
    countSameDay (update_market_prices (update_market_prices [] 10 11 3600) 12 13 3600)
      3600 = 1 := by
  have h := C5_upsert_idempotent [] 10 11 12 13 3600 3600 (by simp) rfl
  exact ⟨h.1, h.2.1, h.2.2.1, h.2.2.2.1⟩

/-- C10: the admin manual price-update endpoint appends a row
unconditionally, so on a day that already has a stored row one admin
update leaves (at least) two same-day rows — the one-canonical-row-per-
day property fails across this write path (`update_prices`, `app.py`
lines 1220-1239; `MarketPrice`, `models.py` lines 75-86). -/
theorem C10_admin_update_duplicates (db : List MPrice) (source : String)
    (red white : ℚ) (grade : String) (now : ℤ)
    (h : 1 ≤ countSameDay db now) :
    countSameDay (update_prices db source red white grade now) now =
      countSameDay db now + 1 ∧
    2 ≤ countSameDay (update_prices db source red white grade now) now ∧
    (update_prices db source red white grade now).length = db.length + 1 := by
  have hcount : countSameDay (update_prices db source red white grade now) now =
      countSameDay db now + 1 := by
    unfold update_prices countSameDay
    rw [List.filter_append]
    simp [List.filter, (todayStart_le now).1, (todayStart_le now).2]
  exact ⟨hcount, by omega, by simp [update_prices]⟩

/-- Witness for C10: a store holding one row dated at the IST epoch
midnight, updated at that same instant. -/
theorem C10_admin_update_duplicates_witness :
    countSameDay (update_prices [⟨"Local Mandi", 1, 2, "Grade B", 0⟩] "s" 3 4 "g" 0) 0 =
      countSameDay [⟨"Local Mandi", 1, 2, "Grade B", 0⟩] 0 + 1 ∧
    2 ≤ countSameDay (update_prices [⟨"Local Mandi", 1, 2, "Grade B", 0⟩] "s" 3 4 "g" 0) 0 ∧
    (update_prices [⟨"Local Mandi", 1, 2, "Grade B", 0⟩] "s" 3 4 "g" 0).length =
      ([⟨"Local Mandi", 1, 2, "Grade B", 0⟩] : List MPrice).length + 1 :=
  C10_admin_update_duplicates [⟨"Local Mandi", 1, 2, "Grade B", 0⟩] "s" 3 4 "g" 0
    (by norm_num [countSameDay, todayStart, List.filter])

/-! Irrigation-logging embedding (`smart_irrigation`, `app.py` lines
1146-1218). -/

/-- Pump state (`PumpStatus.status`, stored as the strings `'ON'` /
`'OFF'` in `models.py`). -/
inductive PumpSt where
  | ON
  | OFF
deriving DecidableEq, Repr

/-- One `IrrigationLog` row as written by `smart_irrigation`
(`models.py` lines 60-72). -/
structure IrrLog where
  soilMoisture : Option ℚ
  pumpStatus : PumpSt
  actionType : String
  message : String
deriving DecidableEq, Repr

/-- Moisture classification of the simulate branch (`app.py` lines
1168-1176); the leading emoji of each message is omitted, the text is
otherwise verbatim.  The pair is `(message, status)`. -/
def simClassify (m : ℚ) : String × String :=
  if m < 30 then ("Water required now. Soil moisture is low.", "Low")
  else if 80 < m then ("Waterlogging detected - stop irrigation immediately!", "High")
  else ("Soil moisture is optimal. No action needed.", "Optimal")

/-- The simulate action of `smart_irrigation` (`app.py` lines
1164-1187): classify the supplied moisture, append one `Simulation` log
entry carrying the pump's *current* status and the supplied moisture,
and leave the pump record itself untouched. -/
def smartIrrigationSimulate (pump : PumpSt) (logs : List IrrLog) (m : ℚ) :
    PumpSt × List IrrLog :=
  (pump, logs ++ [⟨some m, pump, "Simulation", (simClassify m).1⟩])

/-- C8: a moisture simulation classifies the supplied level as `Low`
(< 30), `Optimal` (30-80) or `High` (> 80), appends one log entry with
action type `Simulation` recording the pump's current status and the
supplied moisture, and leaves the per-user pump record unchanged
(`smart_irrigation`, `app.py` lines 1161-1187). -/
theorem C8_moisture_simulation (pump : PumpSt) (logs : List IrrLog) (m : ℚ) :
    (m < 30 → (simClassify m).2 = "Low") ∧
    (30 ≤ m ∧ m ≤ 80 → (simClassify m).2 = "Optimal") ∧
    (80 < m → (simClassify m).2 = "High") ∧
    (smartIrrigationSimulate pump logs m).1 = pump ∧
    (smartIrrigationSimulate pump logs m).2 =
      logs ++ [⟨some m, pump, "Simulation", (simClassify m).1⟩] := by
  refine ⟨?_, ?_, ?_, rfl, rfl⟩
  · intro h
    rw [simClassify, if_pos h]
  · intro h
    rw [simClassify, if_neg (not_lt.mpr h.1), if_neg (not_lt.mpr h.2)]
  · intro h
    rw [simClassify, if_neg (by linarith), if_pos h]

/-- Witness for C8 at the spec's example levels 25, 50 and 85. -/
theorem C8_moisture_simulation_witness :
    (simClassify 25).2 = "Low" ∧
    (simClassify 50).2 = "Optimal" ∧
    (simClassify 85).2 = "High" ∧
    (smartIrrigationSimulate PumpSt.OFF [] 25).1 = PumpSt.OFF :=
  ⟨(C8_moisture_simulation PumpSt.OFF [] 25).1 (by norm_num),
   (C8_moisture_simulation PumpSt.OFF [] 50).2.1 (by norm_num),
   (C8_moisture_simulation PumpSt.OFF [] 85).2.2.1 (by norm_num),
   (C8_moisture_simulation PumpSt.OFF [] 25).2.2.2.1⟩

/-! Admin settings handlers embedding (`update_system_settings` and
`reset_setting`, `app.py` lines 1273-1344, and the session written by
`login`, lines 401-423). -/

/-- Session contents stored by the `login` handler (`app.py` lines
410-412): exactly the keys `user_id`, `user_name` and `user_type`
(values modelled as strings). -/
def loginSession (userId userName userType : String) : List (String × String) :=
  [("user_id", userId), ("user_name", userName), ("user_type", userType)]

/-- Flask `session[k]`: `none` models the `KeyError` raised on a missing
key. -/
def sessionLookup (sess : List (String × String)) (k : String) : Option String :=
  (sess.find? (fun p => p.1 == k)).map (fun p => p.2)

/-- One `users` row as read by the settings handlers. -/
structure URec where
  phone : String
  name : String
deriving DecidableEq, Repr

/-- One `SystemSettings` row (`models.py` lines 101-114). -/
structure Setting where
  key : String
  value : String
  stype : String
  category : String
  updatedAt : ℤ
  updatedBy : Option String
deriving DecidableEq, Repr

/-- Outcome of a settings handler: which flash family it emitted
(`success` carries the updated count for `update_system_settings`;
`error` is the `except` path after a rollback). -/
inductive SettingsResult where
  | updated (count : ℕ)
  | reset
  | notFound
  | noDefault
  | error
deriving DecidableEq, Repr

/-- Overwrite the first row carrying the given key (SQLAlchemy
`filter_by(setting_key=...).first()` followed by attribute writes). -/
def updateFirst (f : Setting → Setting) (k : String) : List Setting → List Setting
  | [] => []
  | s :: rest => if s.key == k then f s :: rest else s :: updateFirst f k rest

/-- The `update_system_settings` handler (`app.py` lines 1276-1304).
The whole `try` block runs in one uncommitted transaction: the
`session['user_phone']` read raises `KeyError` when the key is absent,
and `user.name` raises `AttributeError` when the user query returned
`None` and some form field matched a setting; either exception reaches
the `except`, which rolls back, leaving the stored rows unchanged. -/
def update_system_settings (sess : List (String × String)) (users : List URec)
    (form : List (String × String)) (db : List Setting) (now : ℤ) :
    List Setting × SettingsResult :=
  let tryBlock : Except Unit (List Setting × ℕ) :=
    match sessionLookup sess "user_phone" with
    | none => Except.error ()
    | some phone =>
      let user := users.find? (fun u => u.phone == phone)
      form.foldlM (fun (acc : List Setting × ℕ) kv =>
        if kv.1.startsWith "setting_" then
          let skey := kv.1.replace "setting_" ""
          if acc.1.any (fun s => s.key == skey) then
            match user with
            | none => Except.error ()
            | some u =>
              Except.ok (updateFirst (fun s =>
                { s with
                  value := if s.stype == "boolean"
                    then (if kv.2 == "on" then "true" else "false")
                    else kv.2,
                  updatedBy := some u.name,
                  updatedAt := now }) skey acc.1, acc.2 + 1)
          else Except.ok acc
        else Except.ok acc) (db, 0)
  match tryBlock with
  | Except.ok r => (r.1, SettingsResult.updated r.2)
  | Except.error _ => (db, SettingsResult.error)

/-- Default values table of `reset_setting` (`app.py` lines 1314-1327). -/
def RESET_DEFAULTS : List (String × String) :=
  [("site_name", "Adike Mitra"),
   ("site_tagline", "Smart Arecanut Farm Management"),
   ("max_upload_size", "16"),
   ("detection_confidence_threshold", "0.75"),
   ("enable_notifications", "true"),
   ("irrigation_auto_mode", "true"),
   ("soil_moisture_threshold", "30"),
   ("maintenance_mode", "false"),
   ("user_registration", "true"),
   ("session_timeout", "60"),
   ("ai_model_version", "v3.0"),
   ("backup_frequency", "daily")]

/-- The `reset_setting` handler (`app.py` lines 1307-1344): the
in-place mutation of the setting row textually precedes the
`session['user_phone']` read but stays uncommitted, so the `KeyError`
(or the `AttributeError` on a missing user) reaches the `except`, which
rolls back; the missing-key and missing-default paths flash without
touching the rows. -/
def reset_setting (sess : List (String × String)) (users : List URec)
    (key : String) (db : List Setting) (now : ℤ) : List Setting × SettingsResult :=
  let tryBlock : Except Unit (List Setting × SettingsResult) :=
    match db.find? (fun s => s.key == key) with
    | none => Except.ok (db, SettingsResult.notFound)
    | some _ =>
      match RESET_DEFAULTS.find? (fun p => p.1 == key) with
      | none => Except.ok (db, SettingsResult.noDefault)
      | some d =>
        match sessionLookup sess "user_phone" with
        | none => Except.error ()
        | some phone =>
          match users.find? (fun u => u.phone == phone) with
          | none => Except.error ()
          | some u =>
            Except.ok (updateFirst (fun s =>
              { s with value := d.2, updatedAt := now, updatedBy := some u.name })
              key db, SettingsResult.reset)
  match tryBlock with
  | Except.ok r => r
  | Except.error _ => (db, SettingsResult.error)

/-- C9: under any session created by `login` (which stores only
`user_id`, `user_name` and `user_type`, never `user_phone`), the
settings-update handler always rolls back with an error and leaves the
settings rows unchanged; the settings-reset handler likewise leaves the
rows unchanged, and on any key that exists with a default the
`session['user_phone']` lookup raises and the error path is taken. -/
theorem C9_settings_handlers_fail (userId userName userType : String)
    (users : List URec) (form : List (String × String)) (db : List Setting)
    (now : ℤ) (key : String) :
    update_system_settings (loginSession userId userName userType) users form db now =
      (db, SettingsResult.error) ∧
    (reset_setting (loginSession userId userName userType) users key db now).1 = db ∧
    ((∃ s ∈ db, s.key = key) → (∃ p ∈ RESET_DEFAULTS, p.1 = key) →
      (reset_setting (loginSession userId userName userType) users key db now).2 =
        SettingsResult.error) := by
  have hsess : sessionLookup (loginSession userId userName userType) "user_phone" =
      none := rfl
  refine ⟨?_, ?_, ?_⟩
  · simp [update_system_settings, hsess]
  · cases hfind : db.find? (fun s => s.key == key) with
    | none => simp [reset_setting, hfind]
    | some s =>
      cases hdef : RESET_DEFAULTS.find? (fun p => p.1 == key) with
      | none => simp [reset_setting, hfind, hdef]
      | some d => simp [reset_setting, hfind, hdef, hsess]
  · intro hs hd
    obtain ⟨s, hs1, hs2⟩ := hs
    obtain ⟨p, hp1, hp2⟩ := hd
    have hfind : (db.find? (fun x => x.key == key)).isSome :=
      List.find?_isSome.mpr ⟨s, hs1, by simp [hs2]⟩
    have hdef : (RESET_DEFAULTS.find? (fun x => x.1 == key)).isSome :=
      List.find?_isSome.mpr ⟨p, hp1, by simp [hp2]⟩
    obtain ⟨s0, hs0⟩ := Option.isSome_iff_exists.mp hfind
    obtain ⟨d0, hd0⟩ := Option.isSome_iff_exists.mp hdef
    simp [reset_setting, hs0, hd0, hsess]

/-- Witness for C9 on a one-row settings table holding `site_name`. -/
theorem C9_settings_handlers_fail_witness :
    (reset_setting (loginSession "1" "Admin" "Developer") []
      "site_name" [⟨"site_name", "X", "text", "general", 0, none⟩] 0).2 =
      SettingsResult.error :=
  (C9_settings_handlers_fail "1" "Admin" "Developer" [] []
    [⟨"site_name", "X", "text", "general", 0, none⟩] 0 "site_name").2.2
    ⟨⟨"site_name", "X", "text", "general", 0, none⟩, by simp, rfl⟩
    ⟨("site_name", "Adike Mitra"), by simp [RESET_DEFAULTS], rfl⟩

end AdikeMitra
